import Mathlib

/-!
Verification development for the FeatherSQL backend (`src-tauri/src/db`):
a shallow embedding of the connection-config model (`connections.rs`),
the pool manager (`pool_manager.rs`) and the query executor (`execute.rs`),
together with theorems settling the specification claims about them.

Modelling conventions:
* Rust `String` is Lean `String`; all character-level operations
  (`trim`, `to_uppercase`, `starts_with`, `contains`, `trim_end_matches`)
  are defined below on the character list so their semantics are explicit.
* Network and file-system effects are oracles packaged in an `Env`
  record: a pool handle is an abstract `Nat`, connecting is a function
  from the generated connection string to `Except String Nat`, a health
  check is a boolean function of the pool.  Quantifying a theorem over
  every `Env` expresses independence from the corresponding effect.
* The async `RwLock`-guarded `HashMap<String, DatabasePool>` is modelled
  as an association list acted on sequentially; the claims under study
  are about the sequential contents of the cache.
* Driver rows are modelled by a record of per-type extraction results
  (`Cell`), mirroring the `try_get::<T>` interface of sqlx / tiberius:
  each field is `some v` exactly when the corresponding typed extraction
  succeeds.  Doubles are abstracted to their JSON-number image, with the
  inner `Option` equal to `none` when `serde_json::Number::from_f64`
  would fail (non-finite value); timestamps are carried as their
  canonical `to_string` rendering, since the claims concern only the
  order and presence of decode attempts.
-/

namespace FeatherSQL

/-! ## Rust string primitives -/

/-- Character-list core of Rust `str::starts_with`. -/
def strStartsWithL : List Char → List Char → Bool
  | _, [] => true
  | [], _ :: _ => false
  | c :: s, d :: p => c == d && strStartsWithL s p

/-- Rust `str::starts_with` on strings. -/
def strStartsWith (s pat : String) : Bool :=
  strStartsWithL s.data pat.data

/-- Character-list core of Rust `str::contains` (substring search). -/
def strContainsL : List Char → List Char → Bool
  | s, p =>
    strStartsWithL s p ||
      match s with
      | [] => false
      | _ :: t => strContainsL t p

/-- Rust `str::contains` on strings. -/
def strContains (s pat : String) : Bool :=
  strContainsL s.data pat.data

/-- Rust `str::trim`: strip leading and trailing whitespace. -/
def rustTrim (s : String) : String :=
  ⟨((s.data.dropWhile Char.isWhitespace).reverse.dropWhile Char.isWhitespace).reverse⟩

/-- Rust `str::to_uppercase` (ASCII-relevant part). -/
def rustToUpper (s : String) : String :=
  ⟨s.data.map Char.toUpper⟩

/-- Rust `str::trim_end_matches(';')`: strip every trailing semicolon. -/
def trimEndSemicolons (s : String) : String :=
  ⟨(s.data.reverse.dropWhile (· == ';')).reverse⟩

/-! ## Engine config model (`connections.rs`) -/

/-- `ConnectionConfig` from `connections.rs`: one variant per engine. -/
inductive ConnectionConfig where
  | Sqlite (filepath : String)
  | Mysql (host : String) (port : Nat) (user : String) (password : String)
      (database : Option String) (ssl : Bool)
  | Postgres (host : String) (port : Nat) (user : String) (password : String)
      (database : Option String) (ssl : Bool)
  | Mssql (host : String) (port : Nat) (user : String) (password : String)
      (database : Option String) (ssl : Bool)
  deriving Repr, DecidableEq

/-- `Connection` from `connections.rs`. -/
structure Connection where
  id : String
  name : String
  db_type : String
  config : ConnectionConfig
  deriving Repr, DecidableEq

/-! ## JSON values

One inductive serves both the `serde_json::Value` cells produced by the
executor and the loosely-typed config parameter bags.  `numInt` is a
JSON number built from an integer (`serde_json::Number::from`), `numF`
one built from a double via `from_f64` (payload abstracted to its
integer image as explained in the header). -/

inductive JVal where
  | jnull
  | jstr (s : String)
  | numInt (n : Int)
  | numF (n : Int)
  | jbool (b : Bool)
  deriving Repr, DecidableEq

/-- A config parameter bag: `serde_json::Value::Object` restricted to the
scalar fields the decoders read. -/
def Bag := List (String × JVal)

/-- `config.get(field)`. -/
def Bag.get (bag : Bag) (field : String) : Option JVal :=
  List.lookup field bag

/-- `Value::as_str`. -/
def JVal.asStr : JVal → Option String
  | .jstr s => some s
  | _ => none

/-- `Value::as_u64`: succeeds only on non-negative integer numbers. -/
def JVal.asU64 : JVal → Option Nat
  | .numInt n => if 0 ≤ n then some n.toNat else none
  | _ => none

/-- `Value::as_bool`. -/
def JVal.asBool : JVal → Option Bool
  | .jbool b => some b
  | _ => none

/-- `bag.get(f).and_then(|v| v.as_str())`. -/
def Bag.getStr (bag : Bag) (field : String) : Option String :=
  (bag.get field).bind JVal.asStr

/-- `bag.get(f).and_then(|v| v.as_u64())`. -/
def Bag.getU64 (bag : Bag) (field : String) : Option Nat :=
  (bag.get field).bind JVal.asU64

/-- `bag.get(f).and_then(|v| v.as_bool())`. -/
def Bag.getBool (bag : Bag) (field : String) : Option Bool :=
  (bag.get field).bind JVal.asBool

/-- Rust `as u16` on the `u64` produced by `as_u64`. -/
def toU16 (n : Nat) : Nat := n % 65536

/-! ## Pool manager data (`pool_manager.rs`) -/

/-- `DatabasePool` from `pool_manager.rs`: note there is no MSSQL
variant.  The payload is the abstract handle of the underlying sqlx
pool. -/
inductive DatabasePool where
  | Sqlite (p : Nat)
  | Mysql (p : Nat)
  | Postgres (p : Nat)
  deriving Repr, DecidableEq

/-- The cache inside `PoolManager`: `HashMap<String, DatabasePool>`
modelled as an association list with distinct keys. -/
def PoolMap := List (String × DatabasePool)

/-- `HashMap::get`. -/
def PoolMap.lookup (m : PoolMap) (k : String) : Option DatabasePool :=
  List.lookup k m

/-- `HashMap::insert` (replaces any existing binding of the key). -/
def PoolMap.insert (m : PoolMap) (k : String) (v : DatabasePool) : PoolMap :=
  (k, v) :: m.filter (fun kv => !(kv.1 == k))

/-- `HashMap::retain`. -/
def PoolMap.retain (m : PoolMap) (p : String → DatabasePool → Bool) : PoolMap :=
  m.filter (fun kv => p kv.1 kv.2)

/-! ## Effect oracles -/

/-- Oracles for the effects the pool manager performs.  `connectX` maps
the generated connection string to the sqlx connect outcome; `health`
is the outcome of the `SELECT 1` round trip of `check_pool_health`;
`fileExists` is `std::path::Path::exists`. -/
structure Env where
  connectSqlite : String → Except String Nat
  connectMysql : String → Except String Nat
  connectPostgres : String → Except String Nat
  health : DatabasePool → Bool
  fileExists : String → Bool

/-! ## Pool manager operations (`pool_manager.rs`) -/

/-- The cache key computed at the top of `get_or_create_pool`:
`format!("{}:{}", connection.id, db)` when a database override is
supplied, `format!("{}:", connection.id)` otherwise. -/
def poolKey (connectionId : String) (database : Option String) : String :=
  match database with
  | some db => connectionId ++ ":" ++ db
  | none => connectionId ++ ":"

/-- The `format!("sqlite://{}", filepath)` string of `create_pool`. -/
def sqliteConnString (filepath : String) : String :=
  "sqlite://" ++ filepath

/-- The `format!("mysql://{}:{}@{}:{}{}{}")` string of `create_pool`,
given the already resolved database name `db_name`. -/
def mysqlConnString (host : String) (port : Nat) (user password : String)
    (dbName : Option String) (ssl : Bool) : String :=
  let dbPart := (dbName.map (fun d => "/" ++ d)).getD ""
  let sslParam := if ssl then "?ssl-mode=REQUIRED" else "?ssl-mode=DISABLED"
  "mysql://" ++ user ++ ":" ++ password ++ "@" ++ host ++ ":" ++
    toString port ++ dbPart ++ sslParam

/-- The `format!("postgres://{}:{}@{}:{}{}{}")` string of `create_pool`,
given the already resolved database name `db_name`. -/
def postgresConnString (host : String) (port : Nat) (user password : String)
    (dbName : Option String) (ssl : Bool) : String :=
  let dbPart := (dbName.map (fun d => "/" ++ d)).getD ""
  let sslParam := if ssl then "?sslmode=require" else "?sslmode=disable"
  "postgres://" ++ user ++ ":" ++ password ++ "@" ++ host ++ ":" ++
    toString port ++ dbPart ++ sslParam

/-- `PoolManager::create_pool`: resolve the database name as
`database.or(config_db)`, build the engine-specific connection string
and connect; MSSQL is rejected outright. -/
def createPool (env : Env) (connection : Connection) (database : Option String) :
    Except String DatabasePool :=
  match connection.config with
  | .Sqlite filepath =>
    match env.connectSqlite (sqliteConnString filepath) with
    | .ok p => .ok (.Sqlite p)
    | .error e => .error ("Failed to create SQLite pool: " ++ e)
  | .Mysql host port user password configDb ssl =>
    let dbName := database.or configDb
    match env.connectMysql (mysqlConnString host port user password dbName ssl) with
    | .ok p => .ok (.Mysql p)
    | .error e => .error ("Failed to create MySQL pool: " ++ e)
  | .Postgres host port user password configDb ssl =>
    let dbName := database.or configDb
    match env.connectPostgres (postgresConnString host port user password dbName ssl) with
    | .ok p => .ok (.Postgres p)
    | .error e => .error ("Failed to create PostgreSQL pool: " ++ e)
  | .Mssql _ _ _ _ _ _ =>
    .error "MSSQL pool management not yet implemented"

/-- `PoolManager::get_or_create_pool` acting on the cache contents:
cached-and-healthy hit is returned as is; otherwise a fresh pool is
built and, on success, inserted under the key.  Returns the result
together with the new cache contents. -/
def getOrCreatePool (env : Env) (pools : PoolMap) (connection : Connection)
    (database : Option String) : Except String DatabasePool × PoolMap :=
  let key := poolKey connection.id database
  let cached : Option DatabasePool :=
    match pools.lookup key with
    | some pool => if env.health pool then some pool else none
    | none => none
  match cached with
  | some pool => (.ok pool, pools)
  | none =>
    match createPool env connection database with
    | .ok pool => (.ok pool, pools.insert key pool)
    | .error e => (.error e, pools)

/-- `PoolManager::get_pool_without_db`. -/
def getPoolWithoutDb (env : Env) (pools : PoolMap) (connection : Connection) :
    Except String DatabasePool × PoolMap :=
  getOrCreatePool env pools connection none

/-- `PoolManager::remove_pool`: retain only entries whose key does not
start with `"{connection_id}:"`. -/
def removePool (pools : PoolMap) (connectionId : String) : PoolMap :=
  pools.retain (fun k _ => !(strStartsWith k (connectionId ++ ":")))

/-- `PoolManager::clear_all`. -/
def clearAll (_pools : PoolMap) : PoolMap := []

/-! ## Driver rows and value decoding (`execute.rs`) -/

/-- The typed-extraction interface of one result cell: each field is the
outcome of the driver's `try_get::<T>` for that type (`some v` on
success).  `asF64` carries the JSON-number image of the double, with
inner `none` when `serde_json::Number::from_f64` would fail; the
timestamp fields carry the canonical `to_string` rendering. -/
structure Cell where
  asString : Option String := none
  asI32 : Option Int := none
  asI64 : Option Int := none
  asF64 : Option (Option Int) := none
  asBool : Option Bool := none
  asNaiveDateTime : Option String := none
  asUtcDateTime : Option String := none
  deriving Repr, DecidableEq

/-- The body of the `row_to_json_values!` macro for one cell of an sqlx
row: `String`, `i64`, `f64`, `bool`, `NaiveDateTime`, `DateTime<Utc>`,
then a last `String` attempt, else JSON null. -/
def rowCellToJson (c : Cell) : JVal :=
  match c.asString with
  | some v => .jstr v
  | none =>
    match c.asI64 with
    | some v => .numInt v
    | none =>
      match c.asF64 with
      | some v =>
        match v with
        | some n => .numF n
        | none => .numInt 0
      | none =>
        match c.asBool with
        | some v => .jbool v
        | none =>
          match c.asNaiveDateTime with
          | some v => .jstr v
          | none =>
            match c.asUtcDateTime with
            | some v => .jstr v
            | none =>
              match c.asString with
              | some v => .jstr v
              | none => .jnull

/-- `mssql_value_to_json` from `execute.rs`: the tiberius decode chain
`&str`, `i32`, `i64`, `f64`, `bool`, then a last `&str` attempt, else
JSON null.  No timestamp extraction is attempted. -/
def mssqlValueToJson (c : Cell) : JVal :=
  match c.asString with
  | some v => .jstr v
  | none =>
    match c.asI32 with
    | some v => .numInt v
    | none =>
      match c.asI64 with
      | some v => .numInt v
      | none =>
        match c.asF64 with
        | some v =>
          match v with
          | some n => .numF n
          | none => .numInt 0
        | none =>
          match c.asBool with
          | some v => .jbool v
          | none =>
            match c.asString with
            | some v => .jstr v
            | none => .jnull

/-- One sqlx result row: its column descriptor names together with its
cells.  `try_get(i)` for an out-of-range `i` fails for every type, so
the decode of a missing cell is JSON null. -/
structure RowData where
  cols : List String
  cells : List Cell
  deriving Repr, DecidableEq

/-- `row_to_json_values!(row, column_count)`: decode cells `0..count`. -/
def rowToJsonValues (row : RowData) (columnCount : Nat) : List JVal :=
  (List.range columnCount).map (fun i =>
    match row.cells.get? i with
    | some c => rowCellToJson c
    | none => .jnull)

/-- `QueryResult` from `execute.rs`. -/
structure QueryResult where
  columns : List String
  rows : List (List JVal)
  deriving Repr, DecidableEq

/-- Oracles for one pooled engine's query effects: `fetchAll` is
`sqlx::query(sql).fetch_all(pool)`, `exec` is
`sqlx::query(sql).execute(pool)` returning `rows_affected()`. -/
structure QueryEnv where
  fetchAll : String → Except String (List RowData)
  exec : String → Except String Nat

/-! ## Query executor (`execute.rs`) -/

/-- The zero-row column-recovery query of `execute_sql_sqlite`: wrap in
` LIMIT 0` whenever the trimmed uppercased SQL starts with `SELECT`. -/
def sqliteLimitQuery (sql : String) : String :=
  if strStartsWith (rustToUpper (rustTrim sql)) "SELECT" then
    rustTrim (trimEndSemicolons sql) ++ " LIMIT 0"
  else
    sql

/-- The zero-row column-recovery query of `execute_sql_mysql`:
identical to the SQLite one. -/
def mysqlLimitQuery (sql : String) : String :=
  if strStartsWith (rustToUpper (rustTrim sql)) "SELECT" then
    rustTrim (trimEndSemicolons sql) ++ " LIMIT 0"
  else
    sql

/-- The zero-row column-recovery query of `execute_sql_postgres`: wrap
only when the trimmed uppercased SQL starts with `SELECT` and does not
already contain `LIMIT`. -/
def postgresLimitQuery (sql : String) : String :=
  let sqlUpper := rustToUpper (rustTrim sql)
  if strStartsWith sqlUpper "SELECT" && !(strContains sqlUpper "LIMIT") then
    rustTrim (trimEndSemicolons sql) ++ " LIMIT 0"
  else
    sql

/-- Column names of the query branch, shared by the three pooled
executors: from the first row when rows are non-empty, else from
re-issuing the engine's limit query. -/
def queryColumns (env : QueryEnv) (limitQuery : String) (rows : List RowData) :
    List String :=
  match rows with
  | [] =>
    match env.fetchAll limitQuery with
    | .ok limitRows =>
      match limitRows with
      | [] => []
      | r :: _ => r.cols
    | .error _ => []
  | r :: _ => r.cols

/-- The query/command two-phase body shared verbatim by
`execute_sql_sqlite`, `execute_sql_mysql` and `execute_sql_postgres`;
the engines differ only in the limit-query computation. -/
def executeSqlPooled (env : QueryEnv) (limitQuery sql : String) :
    Except String QueryResult :=
  match env.fetchAll sql with
  | .ok rows =>
    let columns := queryColumns env limitQuery rows
    let jsonRows := rows.map (fun row => rowToJsonValues row columns.length)
    .ok { columns := columns, rows := jsonRows }
  | .error _ =>
    match env.exec sql with
    | .ok rowsAffected =>
      .ok { columns := ["affected_rows"],
            rows := [[JVal.numInt rowsAffected]] }
    | .error e => .error ("SQL execution failed: " ++ e)

/-- `execute_sql_sqlite`. -/
def executeSqlSqlite (env : QueryEnv) (sql : String) : Except String QueryResult :=
  executeSqlPooled env (sqliteLimitQuery sql) sql

/-- `execute_sql_mysql`. -/
def executeSqlMysql (env : QueryEnv) (sql : String) : Except String QueryResult :=
  executeSqlPooled env (mysqlLimitQuery sql) sql

/-- `execute_sql_postgres`. -/
def executeSqlPostgres (env : QueryEnv) (sql : String) : Except String QueryResult :=
  executeSqlPooled env (postgresLimitQuery sql) sql

/-! ## Config decoding (`connections.rs`) -/

/-- The config-decoding section of `create_connection`: turn an engine
kind and a parameter bag into a `ConnectionConfig`, failing with the
message of the corresponding `ok_or` when a required field is missing
or mistyped. -/
def createConnectionConfig (dbType : String) (config : Bag) :
    Except String ConnectionConfig :=
  match dbType with
  | "sqlite" =>
    match config.getStr "filepath" with
    | some filepath => .ok (.Sqlite filepath)
    | none => .error "Missing filepath for SQLite connection"
  | "mysql" =>
    match config.getStr "host" with
    | none => .error "Missing host for MySQL connection"
    | some host =>
      match config.getU64 "port" with
      | none => .error "Missing port for MySQL connection"
      | some port =>
        match config.getStr "user" with
        | none => .error "Missing user for MySQL connection"
        | some user =>
          match config.getStr "password" with
          | none => .error "Missing password for MySQL connection"
          | some password =>
            let database := config.getStr "database"
            let ssl := (config.getBool "ssl").getD false
            .ok (.Mysql host (toU16 port) user password database ssl)
  | "postgres" =>
    match config.getStr "host" with
    | none => .error "Missing host for PostgreSQL connection"
    | some host =>
      match config.getU64 "port" with
      | none => .error "Missing port for PostgreSQL connection"
      | some port =>
        match config.getStr "user" with
        | none => .error "Missing user for PostgreSQL connection"
        | some user =>
          match config.getStr "password" with
          | none => .error "Missing password for PostgreSQL connection"
          | some password =>
            let database := config.getStr "database"
            let ssl := (config.getBool "ssl").getD false
            .ok (.Postgres host (toU16 port) user password database ssl)
  | "mssql" =>
    match config.getStr "host" with
    | none => .error "Missing host for MSSQL connection"
    | some host =>
      match config.getU64 "port" with
      | none => .error "Missing port for MSSQL connection"
      | some port =>
        match config.getStr "user" with
        | none => .error "Missing user for MSSQL connection"
        | some user =>
          match config.getStr "password" with
          | none => .error "Missing password for MSSQL connection"
          | some password =>
            let database := config.getStr "database"
            let ssl := (config.getBool "ssl").getD false
            .ok (.Mssql host (toU16 port) user password database ssl)
  | _ => .error ("Unsupported database type: " ++ dbType)

/-- The config-decoding section of `test_connection`: textually the
same decoder as `create_connection`, kept as its own definition because
the source duplicates the code. -/
def testConnectionConfig (dbType : String) (config : Bag) :
    Except String ConnectionConfig :=
  match dbType with
  | "sqlite" =>
    match config.getStr "filepath" with
    | some filepath => .ok (.Sqlite filepath)
    | none => .error "Missing filepath for SQLite connection"
  | "mysql" =>
    match config.getStr "host" with
    | none => .error "Missing host for MySQL connection"
    | some host =>
      match config.getU64 "port" with
      | none => .error "Missing port for MySQL connection"
      | some port =>
        match config.getStr "user" with
        | none => .error "Missing user for MySQL connection"
        | some user =>
          match config.getStr "password" with
          | none => .error "Missing password for MySQL connection"
          | some password =>
            let database := config.getStr "database"
            let ssl := (config.getBool "ssl").getD false
            .ok (.Mysql host (toU16 port) user password database ssl)
  | "postgres" =>
    match config.getStr "host" with
    | none => .error "Missing host for PostgreSQL connection"
    | some host =>
      match config.getU64 "port" with
      | none => .error "Missing port for PostgreSQL connection"
      | some port =>
        match config.getStr "user" with
        | none => .error "Missing user for PostgreSQL connection"
        | some user =>
          match config.getStr "password" with
          | none => .error "Missing password for PostgreSQL connection"
          | some password =>
            let database := config.getStr "database"
            let ssl := (config.getBool "ssl").getD false
            .ok (.Postgres host (toU16 port) user password database ssl)
  | "mssql" =>
    match config.getStr "host" with
    | none => .error "Missing host for MSSQL connection"
    | some host =>
      match config.getU64 "port" with
      | none => .error "Missing port for MSSQL connection"
      | some port =>
        match config.getStr "user" with
        | none => .error "Missing user for MSSQL connection"
        | some user =>
          match config.getStr "password" with
          | none => .error "Missing password for MSSQL connection"
          | some password =>
            let database := config.getStr "database"
            let ssl := (config.getBool "ssl").getD false
            .ok (.Mssql host (toU16 port) user password database ssl)
  | _ => .error ("Unsupported database type: " ++ dbType)

/-- The config-decoding section of `update_connection`: unlike create
and test, the network engines fall back to silent defaults
(`unwrap_or`) for every missing field; only the SQLite `filepath`
still errors. -/
def updateConnectionConfig (dbType : String) (newConfig : Bag) :
    Except String ConnectionConfig :=
  match dbType with
  | "sqlite" =>
    match newConfig.getStr "filepath" with
    | some filepath => .ok (.Sqlite filepath)
    | none => .error "Missing filepath"
  | "mysql" =>
    let host := (newConfig.getStr "host").getD "localhost"
    let port := toU16 ((newConfig.getU64 "port").getD 3306)
    let user := (newConfig.getStr "user").getD "root"
    let password := (newConfig.getStr "password").getD ""
    let database := newConfig.getStr "database"
    let ssl := (newConfig.getBool "ssl").getD false
    .ok (.Mysql host port user password database ssl)
  | "postgres" =>
    let host := (newConfig.getStr "host").getD "localhost"
    let port := toU16 ((newConfig.getU64 "port").getD 5432)
    let user := (newConfig.getStr "user").getD "postgres"
    let password := (newConfig.getStr "password").getD ""
    let database := newConfig.getStr "database"
    let ssl := (newConfig.getBool "ssl").getD false
    .ok (.Postgres host port user password database ssl)
  | "mssql" =>
    let host := (newConfig.getStr "host").getD "localhost"
    let port := toU16 ((newConfig.getU64 "port").getD 1433)
    let user := (newConfig.getStr "user").getD "sa"
    let password := (newConfig.getStr "password").getD ""
    let database := newConfig.getStr "database"
    let ssl := (newConfig.getBool "ssl").getD false
    .ok (.Mssql host port user password database ssl)
  | _ => .error "Unsupported database type"

/-! ## Connection-string construction for tests (`connections.rs`) -/

/-- `get_connection_string_for_test`: the only constructor that checks
the SQLite file's existence before returning a connection string. -/
def getConnectionStringForTest (env : Env) (config : ConnectionConfig) :
    Except String String :=
  match config with
  | .Sqlite filepath =>
    if !(env.fileExists filepath) then
      .error ("SQLite 文件不存在: " ++ filepath)
    else
      .ok ("sqlite://" ++ filepath)
  | .Mysql host port user password database ssl =>
    let dbPart := (database.map (fun d => "/" ++ d)).getD ""
    let sslParam := if ssl then "?ssl-mode=REQUIRED" else "?ssl-mode=DISABLED"
    .ok ("mysql://" ++ user ++ ":" ++ password ++ "@" ++ host ++ ":" ++
      toString port ++ dbPart ++ sslParam)
  | .Postgres host port user password database ssl =>
    let dbPart := (database.map (fun d => "/" ++ d)).getD ""
    let sslParam := if ssl then "?sslmode=require" else "?sslmode=disable"
    .ok ("postgres://" ++ user ++ ":" ++ password ++ "@" ++ host ++ ":" ++
      toString port ++ dbPart ++ sslParam)
  | .Mssql host port user password database _ =>
    let dbPart := (database.map (fun d => ";database=" ++ d)).getD ""
    .ok ("mssql://" ++ user ++ ":" ++ password ++ "@" ++ host ++ ":" ++
      toString port ++ dbPart)

/-- The SQLite branch of `test_connection` after config decoding:
build the test connection string (which is where the file-existence
check lives) and then try to open the database. -/
def testConnectionSqlite (env : Env) (config : ConnectionConfig) :
    Except String String :=
  match getConnectionStringForTest env config with
  | .error e => .error e
  | .ok connectionString =>
    match env.connectSqlite connectionString with
    | .ok _ => .ok "SQLite 连接成功"
    | .error e => .error ("SQLite 连接失败: " ++ e)

/-! ## Database listing (`connections.rs`) -/

/-- Oracles for the effects `list_databases` performs beyond the pool
manager: a tiberius client connect (host, port, user, password,
optional database, yielding an abstract client handle) and per-handle
catalog queries yielding rows. -/
structure CatalogEnv where
  mssqlConnect : String → Nat → String → String → Option String → Except String Nat
  mssqlQueryRows : Nat → String → Except String (List RowData)
  poolFetchAll : DatabasePool → String → Except String (List RowData)

/-- Extract column 0 of each row as a string; tiberius rows use
`try_get::<&str>(0).ok().flatten()` (silently skipped when absent),
sqlx rows use `row.get::<String>(0)` (modelled as the string extraction
with empty-string default). -/
def rowsToNames (rows : List RowData) : List String :=
  rows.filterMap (fun r => (r.cells.get? 0).bind Cell.asString)

/-- Column 0 of each sqlx row via `row.get::<String, _>(0)`. -/
def rowsToNamesSqlx (rows : List RowData) : List String :=
  rows.map (fun r => (((r.cells.get? 0).bind Cell.asString)).getD "")

/-- `list_databases` given the resolved `Connection`: SQLite returns an
empty list before any pool or client work; MSSQL opens a fresh
tiberius client (no database) and queries `sys.databases`; the pooled
engines acquire a pool without a database and run the engine's catalog
query.  Returns the result together with the pool-cache contents after
the call. -/
def listDatabases (env : Env) (cat : CatalogEnv) (pools : PoolMap)
    (connection : Connection) : Except String (List String) × PoolMap :=
  if connection.db_type == "sqlite" then
    (.ok [], pools)
  else if connection.db_type == "mssql" then
    match connection.config with
    | .Mssql host port user password _ _ =>
      match cat.mssqlConnect host port user password none with
      | .error e => (.error e, pools)
      | .ok client =>
        match cat.mssqlQueryRows client
          "SELECT name FROM sys.databases WHERE database_id > 4 ORDER BY name" with
        | .error e => (.error ("查询数据库列表失败: " ++ e), pools)
        | .ok rows => (.ok (rowsToNames rows), pools)
    | _ => (.error "无效的 MSSQL 配置", pools)
  else
    match getPoolWithoutDb env pools connection with
    | (.error e, pools2) => (.error e, pools2)
    | (.ok pool, pools2) =>
      match pool with
      | .Mysql p =>
        match cat.poolFetchAll (.Mysql p) "SHOW DATABASES" with
        | .error e => (.error ("Failed to list databases: " ++ e), pools2)
        | .ok rows => (.ok (rowsToNamesSqlx rows), pools2)
      | .Postgres p =>
        match cat.poolFetchAll (.Postgres p)
          "SELECT datname FROM pg_database WHERE datistemplate = false ORDER BY datname" with
        | .error e => (.error ("Failed to list databases: " ++ e), pools2)
        | .ok rows => (.ok (rowsToNamesSqlx rows), pools2)
      | _ => (.ok [], pools2)

/-! ## Sample inputs for concrete evaluations -/

/-- An oracle set where every connect attempt fails and every health
check reports the pool dead. -/
def oracleFailEnv : Env :=
  { connectSqlite := fun _ => .error "io"
    connectMysql := fun _ => .error "io"
    connectPostgres := fun _ => .error "io"
    health := fun _ => false
    fileExists := fun _ => false }

/-- An oracle set where every connect attempt succeeds and every pool
is healthy, while the target file does not exist. -/
def oracleOkEnv : Env :=
  { connectSqlite := fun _ => .ok 5
    connectMysql := fun _ => .ok 7
    connectPostgres := fun _ => .ok 9
    health := fun _ => true
    fileExists := fun _ => false }

/-- A registered SQLite connection pointing at `data.db`. -/
def sqliteConn : Connection :=
  { id := "c1", name := "demo", db_type := "sqlite", config := .Sqlite "data.db" }

/-- A registered MySQL connection whose config names database `mydb`. -/
def mysqlConnMydb : Connection :=
  { id := "c2", name := "demo2",
    db_type := "mysql", config := .Mysql "h" 3306 "u" "pw" (some "mydb") false }

/-- A registered MSSQL connection. -/
def mssqlConn : Connection :=
  { id := "c3", name := "demo3",
    db_type := "mssql", config := .Mssql "h" 1433 "sa" "pw" none false }

/-- Catalog oracles where every network operation fails. -/
def quietCatalog : CatalogEnv :=
  { mssqlConnect := fun _ _ _ _ _ => .error "net"
    mssqlQueryRows := fun _ _ => .error "net"
    poolFetchAll := fun _ _ => .error "net" }

/-! ## Supporting lemmas -/

/-- A list is a prefix of itself followed by anything. -/
theorem strStartsWithL_append (l m : List Char) : strStartsWithL (l ++ m) l = true := by
  induction l with
  | nil => cases m <;> rfl
  | cons c t ih => simp [strStartsWithL, ih]

/-- `(a ++ b).data = a.data ++ b.data` for strings. -/
theorem strData_append (a b : String) : (a ++ b).data = a.data ++ b.data := rfl

/-- The pool key of a connection id always starts with `id ++ ":"`. -/
theorem poolKey_startsWith (connectionId : String) (database : Option String) :
    strStartsWith (poolKey connectionId database) (connectionId ++ ":") = true := by
  cases database with
  | none =>
    simp only [poolKey, strStartsWith]
    have := strStartsWithL_append (connectionId ++ ":").data []
    simpa using this
  | some db =>
    simp only [poolKey, strStartsWith, strData_append]
    exact strStartsWithL_append ((connectionId ++ ":").data) db.data

/-- Looking up a key in a filtered association list fails when the
filter discards every binding of that key. -/
theorem lookup_filter_none (m : PoolMap) (k : String)
    (pred : String × DatabasePool → Bool) (h : ∀ v, pred (k, v) = false) :
    List.lookup k (m.filter pred) = none := by
  induction m with
  | nil => rfl
  | cons kv t ih =>
    obtain ⟨k1, v1⟩ := kv
    by_cases hp : pred (k1, v1) = true
    · have hk1 : ¬(k = k1) := by
        intro he
        subst he
        rw [h v1] at hp
        exact Bool.false_ne_true hp
      have hbeq : (k == k1) = false := beq_eq_false_iff_ne.mpr hk1
      simp [List.filter_cons, hp, List.lookup, hbeq, ih]
    · have hp2 : pred (k1, v1) = false := by simpa using hp
      simp [List.filter_cons, hp2, ih]

/-! ## Claim C10 -/

/-- C10: for every registered connection whose engine kind is
`"sqlite"`, `list_databases` returns `Ok` with an empty list at once:
the result and the pool cache are independent of every connect, health,
catalog and client oracle, and the cache is unchanged, so no pool is
acquired or created and no database I/O happens. -/
theorem claim_C10_sqlite_list_databases_empty (env : Env) (cat : CatalogEnv)
    (pools : PoolMap) (connection : Connection)
    (h : connection.db_type = "sqlite") :
    listDatabases env cat pools connection = (.ok [], pools) := by
  simp [listDatabases, h]

/-- Witness for C10 on a concrete SQLite connection. -/
theorem claim_C10_witness :
    listDatabases oracleFailEnv quietCatalog [] sqliteConn = (.ok [], []) :=
  claim_C10_sqlite_list_databases_empty oracleFailEnv quietCatalog [] sqliteConn rfl

/-! ## Claim C9 -/

/-- C9: for every connection whose config is the MSSQL variant,
`get_or_create_pool` returns the `"MSSQL pool management not yet
implemented"` error and leaves the cache unchanged, provided the cache
holds no healthy entry under the connection's key (an invariant of the
program: entries are only inserted after a successful `create_pool`,
which always fails for MSSQL, and a connection's engine kind never
changes).  Moreover `DatabasePool` has only SQLite, MySQL and
PostgreSQL variants, so no MSSQL handle can ever be cached. -/
theorem claim_C9_mssql_pool_error (env : Env) (pools : PoolMap)
    (connection : Connection) (database : Option String)
    (host : String) (port : Nat) (user password : String)
    (configDb : Option String) (ssl : Bool)
    (hcfg : connection.config = .Mssql host port user password configDb ssl)
    (hmiss : ∀ p, pools.lookup (poolKey connection.id database) = some p →
      env.health p = false) :
    getOrCreatePool env pools connection database =
      (.error "MSSQL pool management not yet implemented", pools)
    ∧ ∀ p : DatabasePool,
        (∃ n, p = .Sqlite n) ∨ (∃ n, p = .Mysql n) ∨ (∃ n, p = .Postgres n) := by
  constructor
  · unfold getOrCreatePool
    have hcreate : createPool env connection database =
        .error "MSSQL pool management not yet implemented" := by
      unfold createPool
      rw [hcfg]
    cases hlook : pools.lookup (poolKey connection.id database) with
    | none => simp [hlook, hcreate]
    | some p =>
      have hh := hmiss p hlook
      simp [hlook, hh, hcreate]
  · intro p
    cases p with
    | Sqlite n => exact Or.inl ⟨n, rfl⟩
    | Mysql n => exact Or.inr (Or.inl ⟨n, rfl⟩)
    | Postgres n => exact Or.inr (Or.inr ⟨n, rfl⟩)

/-- Witness for C9: an MSSQL connection against an empty cache. -/
theorem claim_C9_witness :
    getOrCreatePool oracleOkEnv [] mssqlConn none =
      (.error "MSSQL pool management not yet implemented", []) :=
  (claim_C9_mssql_pool_error oracleOkEnv [] mssqlConn none
    "h" 1433 "sa" "pw" none false rfl (by intro p hp; cases hp)).1

/-! ## Claim C7 -/

/-- C7: `remove_pool` removes every cached entry whose key has the
given connection id before the `:` separator, for every database suffix
and for the suffix-free key alike; consequently a subsequent
acquisition for any such key misses the cache and its outcome is
exactly that of a fresh `create_pool`. -/
theorem claim_C7_invalidate_all_suffixes (env : Env) (pools : PoolMap)
    (connection : Connection) (database : Option String) :
    (removePool pools connection.id).lookup (poolKey connection.id database) = none
    ∧ (getOrCreatePool env (removePool pools connection.id) connection database).1 =
        createPool env connection database := by
  have hnone :
      (removePool pools connection.id).lookup (poolKey connection.id database) = none := by
    unfold removePool PoolMap.retain PoolMap.lookup
    apply lookup_filter_none
    intro v
    simp [poolKey_startsWith]
  refine ⟨hnone, ?_⟩
  simp only [getOrCreatePool, hnone]
  cases hc : createPool env connection database <;> simp [hc]

/-! ## Claim C2 -/

/-- C2: each pooled executor attempts the SQL as a row-producing query
first; when that attempt succeeds the outcome is independent of the
command oracle (the command form is never consulted), when it fails the
SQL is retried as a command, and when the command form fails too the
surfaced error is the command-form error, not the query-form one. -/
theorem claim_C2_query_then_command (env env2 : QueryEnv) (sql e1 e2 : String)
    (rows : List RowData) (n : Nat) :
    (env.fetchAll sql = .error e1 → env.exec sql = .error e2 →
      executeSqlSqlite env sql = .error ("SQL execution failed: " ++ e2)
      ∧ executeSqlMysql env sql = .error ("SQL execution failed: " ++ e2)
      ∧ executeSqlPostgres env sql = .error ("SQL execution failed: " ++ e2))
    ∧ (env.fetchAll sql = .error e1 → env.exec sql = .ok n →
      executeSqlSqlite env sql =
        .ok { columns := ["affected_rows"], rows := [[JVal.numInt n]] }
      ∧ executeSqlMysql env sql =
        .ok { columns := ["affected_rows"], rows := [[JVal.numInt n]] }
      ∧ executeSqlPostgres env sql =
        .ok { columns := ["affected_rows"], rows := [[JVal.numInt n]] })
    ∧ (env.fetchAll = env2.fetchAll → env.fetchAll sql = .ok rows →
      executeSqlSqlite env sql = executeSqlSqlite env2 sql
      ∧ executeSqlMysql env sql = executeSqlMysql env2 sql
      ∧ executeSqlPostgres env sql = executeSqlPostgres env2 sql) := by
  refine ⟨?_, ?_, ?_⟩
  · intro hq hc
    refine ⟨?_, ?_, ?_⟩ <;>
      simp [executeSqlSqlite, executeSqlMysql, executeSqlPostgres,
        executeSqlPooled, hq, hc]
  · intro hq hc
    refine ⟨?_, ?_, ?_⟩ <;>
      simp [executeSqlSqlite, executeSqlMysql, executeSqlPostgres,
        executeSqlPooled, hq, hc]
  · intro hfetch hq
    have hq2 : env2.fetchAll sql = .ok rows := by rw [← hfetch]; exact hq
    refine ⟨?_, ?_, ?_⟩ <;>
      simp [executeSqlSqlite, executeSqlMysql, executeSqlPostgres,
        executeSqlPooled, queryColumns, hq, hq2, hfetch]

/-- Witness for C2: with a query oracle that rejects the statement and
a command oracle that also rejects it, the surfaced error is the
command-form one. -/
theorem claim_C2_witness :
    executeSqlSqlite
      { fetchAll := fun _ => .error "query boom", exec := fun _ => .error "cmd boom" }
      "DROP TABLE t" = .error "SQL execution failed: cmd boom" :=
  ((claim_C2_query_then_command
    { fetchAll := fun _ => .error "query boom", exec := fun _ => .error "cmd boom" }
    { fetchAll := fun _ => .error "query boom", exec := fun _ => .error "cmd boom" }
    "DROP TABLE t" "query boom" "cmd boom" [] 0).1 rfl rfl).1

/-! ## Claim C1 -/

/-- Counterexample for C1: a cache holding a stale (unhealthy) SQLite
pool under its key, with the rebuild failing.  Contrary to the claimed
eviction of the stale entry before the rebuild, after the call the
stale entry is still cached under the key; only the rebuild error is
surfaced. -/
theorem claim_C1_counterexample :
    getOrCreatePool oracleFailEnv [("c1:", .Sqlite 0)] sqliteConn none =
      (.error "Failed to create SQLite pool: io", [("c1:", .Sqlite 0)])
    ∧ (getOrCreatePool oracleFailEnv [("c1:", .Sqlite 0)] sqliteConn none).2.lookup
        (poolKey "c1" none) = some (.Sqlite 0) := by
  constructor <;> rfl

/-- C1 (amended): `get_or_create_pool` returns the cached handle only
if one is present and healthy; when the cached handle fails the health
check that failure is never surfaced and the manager falls through to
build a fresh handle, which on success is inserted under the key,
overwriting the stale entry.  The stale entry is not evicted before the
rebuild: if the rebuild fails, it remains cached and only the rebuild
error is surfaced. -/
theorem claim_C1_health_check_rebuild (env : Env) (pools : PoolMap)
    (connection : Connection) (database : Option String) :
    (∀ p, pools.lookup (poolKey connection.id database) = some p →
      env.health p = true →
      getOrCreatePool env pools connection database = (.ok p, pools))
    ∧ ((∀ p, pools.lookup (poolKey connection.id database) = some p →
        env.health p = false) →
      (∀ q, createPool env connection database = .ok q →
        getOrCreatePool env pools connection database =
          (.ok q, pools.insert (poolKey connection.id database) q))
      ∧ (∀ e, createPool env connection database = .error e →
        getOrCreatePool env pools connection database = (.error e, pools))) := by
  refine ⟨?_, ?_⟩
  · intro p hp hh
    simp [getOrCreatePool, hp, hh]
  · intro hstale
    constructor
    · intro q hq
      cases hl : pools.lookup (poolKey connection.id database) with
      | none => simp [getOrCreatePool, hl, hq]
      | some p => simp [getOrCreatePool, hl, hstale p hl, hq]
    · intro e he
      cases hl : pools.lookup (poolKey connection.id database) with
      | none => simp [getOrCreatePool, hl, he]
      | some p => simp [getOrCreatePool, hl, hstale p hl, he]

/-- Witness for C1: an unhealthy cached entry with a failing rebuild
surfaces the rebuild error and leaves the cache unchanged. -/
theorem claim_C1_witness :
    getOrCreatePool oracleFailEnv [("c1:", DatabasePool.Sqlite 0)] sqliteConn none =
      (.error "Failed to create SQLite pool: io", [("c1:", DatabasePool.Sqlite 0)]) :=
  ((claim_C1_health_check_rebuild oracleFailEnv [("c1:", DatabasePool.Sqlite 0)]
      sqliteConn none).2
    (by intro p hp; rfl)).2 "Failed to create SQLite pool: io" rfl

/-! ## Claim C6 -/

/-- Oracles for a reachable MySQL server: connects succeed with handle
7 and every pool is healthy. -/
def mysqlOkEnv : Env :=
  { connectSqlite := fun _ => .error "io"
    connectMysql := fun _ => .ok 7
    connectPostgres := fun _ => .error "io"
    health := fun _ => true
    fileExists := fun _ => true }

/-- Counterexample for C6: on a connection whose config names database
`mydb`, acquiring with no override and then with the explicit override
`mydb` resolves to the same connection string (same database), yet the
second acquisition misses the cache and a second entry is inserted —
the two acquisitions do not share one cached handle, because the cache
key uses only the caller's override, never the config's database
field. -/
theorem claim_C6_counterexample :
    mysqlConnString "h" 3306 "u" "pw" ((none : Option String).or (some "mydb")) false =
      mysqlConnString "h" 3306 "u" "pw" ((some "mydb").or (some "mydb")) false
    ∧ (getOrCreatePool mysqlOkEnv [] mysqlConnMydb none).2 = [("c2:", .Mysql 7)]
    ∧ getOrCreatePool mysqlOkEnv [("c2:", .Mysql 7)] mysqlConnMydb (some "mydb") =
        (.ok (.Mysql 7), [("c2:mydb", .Mysql 7), ("c2:", .Mysql 7)]) := by
  refine ⟨rfl, rfl, rfl⟩

/-- C6 (amended): the cache key is `(connection id, caller's override
or empty)`: acquisitions with the same override against a healthy
cached entry share that handle; an acquisition without an override and
one explicitly naming the config's (non-empty) database get distinct
keys, hence distinct cache entries, even though the config's database
field makes both resolve to the same connection string. -/
theorem claim_C6_cache_key_shape (env : Env) (pools : PoolMap)
    (connection : Connection) (database : Option String) (d : String)
    (p : DatabasePool) :
    (pools.lookup (poolKey connection.id database) = some p →
      env.health p = true →
      getOrCreatePool env pools connection database = (.ok p, pools))
    ∧ (d ≠ "" → poolKey connection.id (some d) ≠ poolKey connection.id none)
    ∧ (∀ host port user password ssl,
        connection.config = .Mysql host port user password (some d) ssl →
        createPool env connection none = createPool env connection (some d)) := by
  refine ⟨?_, ?_, ?_⟩
  · intro hp hh
    simp [getOrCreatePool, hp, hh]
  · intro hd he
    have hlen := congrArg String.length he
    simp only [poolKey, String.length_append] at hlen
    have hdl : d.data.length = 0 := by
      have hdl0 : d.length = 0 := by omega
      exact hdl0
    have hdata : d.data = [] := List.length_eq_zero.mp hdl
    apply hd
    cases d with
    | mk l =>
      simp only [] at hdata
      subst hdata
      rfl
  · intro host port user password ssl hcfg
    simp [createPool, hcfg, Option.or]

/-- Witness for C6: a healthy cached entry under the suffix-free key is
returned as is. -/
theorem claim_C6_witness :
    getOrCreatePool mysqlOkEnv [("c2:", DatabasePool.Mysql 7)] mysqlConnMydb none =
      (.ok (.Mysql 7), [("c2:", DatabasePool.Mysql 7)]) :=
  ((claim_C6_cache_key_shape mysqlOkEnv [("c2:", DatabasePool.Mysql 7)]
    mysqlConnMydb none "mydb" (.Mysql 7)).1) rfl rfl

/-! ## Claim C4 -/

/-- Counterexample for C4: `oracleOkEnv` reports the target file
missing (`fileExists` is `false` everywhere) yet its SQLite connect
oracle succeeds.  The config-test path fails with the file-missing
message, but the pool-acquisition path never checks the file: it
builds the pool and caches an entry, contradicting the claim that the
construction fails on both paths with no pool entry created. -/
theorem claim_C4_counterexample :
    oracleOkEnv.fileExists "data.db" = false
    ∧ getConnectionStringForTest oracleOkEnv (.Sqlite "data.db") =
        .error "SQLite 文件不存在: data.db"
    ∧ getOrCreatePool oracleOkEnv [] sqliteConn none =
        (.ok (.Sqlite 5), [("c1:", .Sqlite 5)]) := by
  refine ⟨rfl, rfl, rfl⟩

/-- C4 (amended): the file-existence check happens only on the
config-test path, where a missing file fails fast with the localized
file-missing message (distinct from the connect-failed message) before
any connection attempt; the pool-acquisition path used by query
execution performs no existence check at all — `create_pool` is
independent of the file-system oracle and simply attempts the
connection. -/
theorem claim_C4_file_check_location (env env2 : Env) (filepath : String)
    (connection : Connection) (database : Option String) (e : String) :
    (env.fileExists filepath = false →
      getConnectionStringForTest env (.Sqlite filepath) =
        .error ("SQLite 文件不存在: " ++ filepath)
      ∧ testConnectionSqlite env (.Sqlite filepath) =
        .error ("SQLite 文件不存在: " ++ filepath))
    ∧ (env.fileExists filepath = true →
      getConnectionStringForTest env (.Sqlite filepath) =
        .ok (sqliteConnString filepath))
    ∧ (env.connectSqlite = env2.connectSqlite →
       env.connectMysql = env2.connectMysql →
       env.connectPostgres = env2.connectPostgres →
       createPool env connection database = createPool env2 connection database)
    ∧ ("SQLite 文件不存在: " ++ filepath ≠ "SQLite 连接失败: " ++ e) := by
  refine ⟨?_, ?_, ?_, ?_⟩
  · intro hmiss
    constructor
    · simp [getConnectionStringForTest, hmiss]
    · simp [testConnectionSqlite, getConnectionStringForTest, hmiss]
  · intro hhit
    simp [getConnectionStringForTest, sqliteConnString, hhit]
  · intro h1 h2 h3
    cases connection.config <;> simp [createPool, h1, h2, h3]
  · intro he
    have h7 := congrArg (fun s => s.data[7]?) he
    simp only [strData_append] at h7
    rw [List.getElem?_append_left (by decide), List.getElem?_append_left (by decide)] at h7
    exact absurd h7 (by decide)

/-- Witness for C4: the config-test path on a missing file fails with
the file-missing message. -/
theorem claim_C4_witness :
    getConnectionStringForTest oracleOkEnv (.Sqlite "data.db") =
      .error "SQLite 文件不存在: data.db" :=
  ((claim_C4_file_check_location oracleOkEnv oracleOkEnv "data.db"
    sqliteConn none "x").1 rfl).1

/-! ## Claim C5 -/

/-- A query oracle that returns zero rows for every statement except
the doubly-wrapped probe, for which it returns one row with column
`a`. -/
def limitProbeEnv : QueryEnv :=
  { fetchAll := fun s =>
      if s == "SELECT 1 LIMIT 5 LIMIT 0" then .ok [{ cols := ["a"], cells := [] }]
      else .ok []
    exec := fun _ => .error "x" }

/-- Counterexample for C5: `SELECT 1 LIMIT 5` already constrains its
row count, yet the SQLite and MySQL paths still wrap it, producing
`SELECT 1 LIMIT 5 LIMIT 0`, and the SQLite executor really re-issues
that doubly-limited statement (its columns can only have come from
it). -/
theorem claim_C5_counterexample :
    sqliteLimitQuery "SELECT 1 LIMIT 5" = "SELECT 1 LIMIT 5 LIMIT 0"
    ∧ mysqlLimitQuery "SELECT 1 LIMIT 5" = "SELECT 1 LIMIT 5 LIMIT 0"
    ∧ executeSqlSqlite limitProbeEnv "SELECT 1 LIMIT 5" =
        .ok { columns := ["a"], rows := [] } := by
  refine ⟨rfl, rfl, rfl⟩

/-- C5 (amended): on a zero-row query the executor re-issues the
statement wrapped with ` LIMIT 0` solely to recover column names; the
wrapping is never applied to statements that do not start with
`SELECT`, but only the PostgreSQL path skips it when the statement
already contains `LIMIT` — the SQLite and MySQL paths wrap every
`SELECT`, including ones already constraining their row count. -/
theorem claim_C5_zero_row_wrap (env : QueryEnv) (sql : String) (r : RowData)
    (rs : List RowData) :
    (strStartsWith (rustToUpper (rustTrim sql)) "SELECT" = false →
      sqliteLimitQuery sql = sql ∧ mysqlLimitQuery sql = sql
      ∧ postgresLimitQuery sql = sql)
    ∧ (strContains (rustToUpper (rustTrim sql)) "LIMIT" = true →
      postgresLimitQuery sql = sql)
    ∧ sqliteLimitQuery "SELECT 1 LIMIT 5" = "SELECT 1 LIMIT 5 LIMIT 0"
    ∧ mysqlLimitQuery "SELECT 1 LIMIT 5" = "SELECT 1 LIMIT 5 LIMIT 0"
    ∧ (env.fetchAll sql = .ok [] →
      env.fetchAll (sqliteLimitQuery sql) = .ok (r :: rs) →
      executeSqlSqlite env sql = .ok { columns := r.cols, rows := [] })
    ∧ (env.fetchAll sql = .ok [] →
      env.fetchAll (postgresLimitQuery sql) = .ok (r :: rs) →
      executeSqlPostgres env sql = .ok { columns := r.cols, rows := [] }) := by
  refine ⟨?_, ?_, rfl, rfl, ?_, ?_⟩
  · intro h
    refine ⟨?_, ?_, ?_⟩ <;> simp [sqliteLimitQuery, mysqlLimitQuery, postgresLimitQuery, h]
  · intro h
    simp [postgresLimitQuery, h]
  · intro h1 h2
    simp [executeSqlSqlite, executeSqlPooled, queryColumns, h1, h2]
  · intro h1 h2
    simp [executeSqlPostgres, executeSqlPooled, queryColumns, h1, h2]

/-- Witness for C5: a non-`SELECT` statement is never wrapped on any
engine path. -/
theorem claim_C5_witness :
    sqliteLimitQuery "DROP TABLE t" = "DROP TABLE t"
    ∧ mysqlLimitQuery "DROP TABLE t" = "DROP TABLE t"
    ∧ postgresLimitQuery "DROP TABLE t" = "DROP TABLE t" :=
  (claim_C5_zero_row_wrap limitProbeEnv "DROP TABLE t" ⟨[], []⟩ []).1 (by decide)

/-! ## Claim C3 -/

/-- Modelled from the spec: row normalization attempts typed extraction
in the fixed priority order string, 64-bit integer, double-precision
float, boolean, then the two timestamp representations rendered to
their canonical string form, taking the first that decodes and falling
back to JSON null when every attempt fails. -/
def specPriorityDecode (c : Cell) : JVal :=
  match c.asString with
  | some v => .jstr v
  | none =>
    match c.asI64 with
    | some v => .numInt v
    | none =>
      match c.asF64 with
      | some (some n) => .numF n
      | some none => .numInt 0
      | none =>
        match c.asBool with
        | some v => .jbool v
        | none =>
          match c.asNaiveDateTime with
          | some v => .jstr v
          | none =>
            match c.asUtcDateTime with
            | some v => .jstr v
            | none => .jnull

/-- The sqlx decode chain agrees with the spec's priority order on
every cell (its final string retry can only fire when the first string
attempt already failed, so it adds nothing). -/
theorem rowCellToJson_eq_specPriorityDecode (c : Cell) :
    rowCellToJson c = specPriorityDecode c := by
  unfold rowCellToJson specPriorityDecode
  cases hs : c.asString with
  | some v => rfl
  | none =>
    cases c.asI64 with
    | some v => rfl
    | none =>
      cases c.asF64 with
      | some v => cases v <;> rfl
      | none =>
        cases c.asBool with
        | some v => rfl
        | none =>
          cases c.asNaiveDateTime with
          | some v => rfl
          | none =>
            cases c.asUtcDateTime with
            | some v => rfl
            | none => rfl

/-- A cell decodable only as a timestamp. -/
def tsOnlyCell : Cell := { asNaiveDateTime := some "2024-01-02 03:04:05" }

/-- A cell decodable only as a 32-bit integer. -/
def i32OnlyCell : Cell := { asI32 := some 5 }

/-- Counterexample for C3: the MSSQL path does not apply the same
priority order — a timestamp-only cell decodes to the canonical string
under the sqlx order but to JSON null under the MSSQL chain, and an
i32-only cell decodes to a number under the MSSQL chain but to JSON
null under the sqlx order. -/
theorem claim_C3_counterexample :
    mssqlValueToJson tsOnlyCell = .jnull
    ∧ specPriorityDecode tsOnlyCell = .jstr "2024-01-02 03:04:05"
    ∧ rowCellToJson tsOnlyCell = .jstr "2024-01-02 03:04:05"
    ∧ mssqlValueToJson i32OnlyCell = .numInt 5
    ∧ rowCellToJson i32OnlyCell = .jnull := by
  refine ⟨rfl, rfl, rfl, rfl, rfl⟩

/-- C3 (amended): the sqlx engine families (SQLite, MySQL, PostgreSQL)
decode each cell in exactly the spec's priority order — string, i64,
f64, bool, the two timestamp renderings, else JSON null; the MSSQL
path deviates: it additionally tries 32-bit integers before 64-bit
ones, and never attempts the timestamp decodings, so a cell whose five
typed attempts fail decodes to JSON null regardless of its timestamp
representations. -/
theorem claim_C3_decode_priority :
    (∀ c, rowCellToJson c = specPriorityDecode c)
    ∧ (∀ c, c.asString = none → c.asI32 = none → c.asI64 = none →
        c.asF64 = none → c.asBool = none → mssqlValueToJson c = .jnull)
    ∧ (∀ c n, c.asString = none → c.asI32 = some n →
        mssqlValueToJson c = .numInt n) := by
  refine ⟨rowCellToJson_eq_specPriorityDecode, ?_, ?_⟩
  · intro c h1 h2 h3 h4 h5
    simp [mssqlValueToJson, h1, h2, h3, h4, h5]
  · intro c n h1 h2
    simp [mssqlValueToJson, h1, h2]

/-- Witness for C3: the MSSQL chain sends a timestamp-only cell to
JSON null. -/
theorem claim_C3_witness :
    mssqlValueToJson { asNaiveDateTime := some "2020-05-05 00:00:00" } = .jnull :=
  claim_C3_decode_priority.2.1 { asNaiveDateTime := some "2020-05-05 00:00:00" }
    rfl rfl rfl rfl rfl

/-! ## Claim C8 -/

/-- The TLS flag carried by a decoded config (`false` for the file
engine, which has none). -/
def ConnectionConfig.sslFlag : ConnectionConfig → Bool
  | .Sqlite _ => false
  | .Mysql _ _ _ _ _ ssl => ssl
  | .Postgres _ _ _ _ _ ssl => ssl
  | .Mssql _ _ _ _ _ ssl => ssl

/-- The network engine kinds with the engine name used in their
`Missing ... for ... connection` messages. -/
def netEngineLabels : List (String × String) :=
  [("mysql", "MySQL"), ("postgres", "PostgreSQL"), ("mssql", "MSSQL")]

/-- Counterexample for C8: the update path decodes an empty MySQL
parameter bag successfully, silently defaulting every required network
field instead of failing with an error naming the missing field. -/
theorem claim_C8_counterexample :
    updateConnectionConfig "mysql" [] =
      .ok (.Mysql "localhost" 3306 "root" "" none false) := by
  rfl

/-- C8 (amended): on the create and test paths a missing required
field fails with the error naming the field and the engine kind
(`filepath` for SQLite; `host`, `port`, `user`, `password` in that
order for the network engines), an unknown engine kind fails with an
unsupported-engine error on all three paths, and an unspecified TLS
flag defaults to disabled; the update path, however, silently defaults
every missing network-engine field and only errors for SQLite's
missing `filepath`. -/
theorem claim_C8_config_decoding (bag : Bag) (kind label host : String)
    (port : Nat) (user : String) (cfg : ConnectionConfig) :
    (bag.getStr "filepath" = none →
      createConnectionConfig "sqlite" bag =
        .error "Missing filepath for SQLite connection"
      ∧ testConnectionConfig "sqlite" bag =
        .error "Missing filepath for SQLite connection"
      ∧ updateConnectionConfig "sqlite" bag = .error "Missing filepath")
    ∧ ((kind, label) ∈ netEngineLabels → bag.getStr "host" = none →
      createConnectionConfig kind bag =
        .error ("Missing host for " ++ label ++ " connection")
      ∧ testConnectionConfig kind bag =
        .error ("Missing host for " ++ label ++ " connection"))
    ∧ ((kind, label) ∈ netEngineLabels → bag.getStr "host" = some host →
      bag.getU64 "port" = none →
      createConnectionConfig kind bag =
        .error ("Missing port for " ++ label ++ " connection")
      ∧ testConnectionConfig kind bag =
        .error ("Missing port for " ++ label ++ " connection"))
    ∧ ((kind, label) ∈ netEngineLabels → bag.getStr "host" = some host →
      bag.getU64 "port" = some port → bag.getStr "user" = none →
      createConnectionConfig kind bag =
        .error ("Missing user for " ++ label ++ " connection")
      ∧ testConnectionConfig kind bag =
        .error ("Missing user for " ++ label ++ " connection"))
    ∧ ((kind, label) ∈ netEngineLabels → bag.getStr "host" = some host →
      bag.getU64 "port" = some port → bag.getStr "user" = some user →
      bag.getStr "password" = none →
      createConnectionConfig kind bag =
        .error ("Missing password for " ++ label ++ " connection")
      ∧ testConnectionConfig kind bag =
        .error ("Missing password for " ++ label ++ " connection"))
    ∧ (kind ∉ ["sqlite", "mysql", "postgres", "mssql"] →
      createConnectionConfig kind bag = .error ("Unsupported database type: " ++ kind)
      ∧ testConnectionConfig kind bag = .error ("Unsupported database type: " ++ kind)
      ∧ updateConnectionConfig kind bag = .error "Unsupported database type")
    ∧ (createConnectionConfig kind bag = .ok cfg → bag.getBool "ssl" = none →
      cfg.sslFlag = false)
    ∧ updateConnectionConfig "mysql" [] =
        .ok (.Mysql "localhost" 3306 "root" "" none false)
    ∧ updateConnectionConfig "postgres" [] =
        .ok (.Postgres "localhost" 5432 "postgres" "" none false)
    ∧ updateConnectionConfig "mssql" [] =
        .ok (.Mssql "localhost" 1433 "sa" "" none false) := by
  refine ⟨?_, ?_, ?_, ?_, ?_, ?_, ?_, rfl, rfl, rfl⟩
  · intro hmiss
    refine ⟨?_, ?_, ?_⟩ <;>
      simp [createConnectionConfig, testConnectionConfig, updateConnectionConfig, hmiss]
  · intro hmem hmiss
    simp only [netEngineLabels, List.mem_cons, List.not_mem_nil, or_false,
      Prod.mk.injEq] at hmem
    rcases hmem with ⟨rfl, rfl⟩ | ⟨rfl, rfl⟩ | ⟨rfl, rfl⟩ <;>
      exact ⟨by simp [createConnectionConfig, hmiss],
        by simp [testConnectionConfig, hmiss]⟩
  · intro hmem hhost hmiss
    simp only [netEngineLabels, List.mem_cons, List.not_mem_nil, or_false,
      Prod.mk.injEq] at hmem
    rcases hmem with ⟨rfl, rfl⟩ | ⟨rfl, rfl⟩ | ⟨rfl, rfl⟩ <;>
      exact ⟨by simp [createConnectionConfig, hhost, hmiss],
        by simp [testConnectionConfig, hhost, hmiss]⟩
  · intro hmem hhost hport hmiss
    simp only [netEngineLabels, List.mem_cons, List.not_mem_nil, or_false,
      Prod.mk.injEq] at hmem
    rcases hmem with ⟨rfl, rfl⟩ | ⟨rfl, rfl⟩ | ⟨rfl, rfl⟩ <;>
      exact ⟨by simp [createConnectionConfig, hhost, hport, hmiss],
        by simp [testConnectionConfig, hhost, hport, hmiss]⟩
  · intro hmem hhost hport huser hmiss
    simp only [netEngineLabels, List.mem_cons, List.not_mem_nil, or_false,
      Prod.mk.injEq] at hmem
    rcases hmem with ⟨rfl, rfl⟩ | ⟨rfl, rfl⟩ | ⟨rfl, rfl⟩ <;>
      exact ⟨by simp [createConnectionConfig, hhost, hport, huser, hmiss],
        by simp [testConnectionConfig, hhost, hport, huser, hmiss]⟩
  · intro hkind
    simp only [List.mem_cons, List.not_mem_nil, or_false, not_or] at hkind
    obtain ⟨h1, h2, h3, h4⟩ := hkind
    refine ⟨?_, ?_, ?_⟩
    · unfold createConnectionConfig
      split <;> simp_all
    · unfold testConnectionConfig
      split <;> simp_all
    · unfold updateConnectionConfig
      split <;> simp_all
  · intro hok hssl
    simp only [createConnectionConfig] at hok
    repeat' split at hok
    all_goals
      first
        | (simp only [Except.ok.injEq] at hok
           subst hok
           simp [ConnectionConfig.sslFlag, hssl])
        | simp at hok

/-- Witness for C8: decoding a MySQL create request from an empty bag
fails naming the `host` field and the engine kind. -/
theorem claim_C8_witness :
    createConnectionConfig "mysql" [] = .error "Missing host for MySQL connection" :=
  ((claim_C8_config_decoding [] "mysql" "MySQL" "h" 3306 "u"
    (.Sqlite "x")).2.1 (by decide) rfl).1

end FeatherSQL
